import Mathlib

/-!
Shallow embedding of `src/claude_statusline.py` (a Claude Code status-line
script) together with theorems settling the specification claims.

Modelling conventions, used throughout:

* Instants are modelled at one-second resolution.  The script keeps
  microseconds internally (`datetime`), but every claim is about whole-second
  behaviour; sub-second fields only shift the instants being quantified over.
* A `datetime` that the script holds in the fixed zone `CST = UTC-06:00` is
  represented by its civil fields (year/month/day/hour/minute/second).  In a
  fixed-offset zone Python compares aware datetimes by instant, which on the
  civil representation is comparison of `secOf` (days-from-civil * 86400 plus
  the time of day); `dt.date() == now.date()` is equality of the date triples;
  and `now + timedelta(days=1)` has the same time of day on the next civil
  date.
* `daysFromCivil`/`civilFromDays` embed the proleptic-Gregorian conversions
  that CPython's `date.toordinal`/`date.fromordinal` perform (Howard Hinnant's
  well-known algorithm, shifted to the Unix epoch).
* The script's only floating-point formatting steps are `f"{days:.1f}"` in
  `format_duration` and `f"{util:.0f}"` in `main`.  Each is modelled by exact
  rounding of the mathematical value (to tenths, half-up; to units, half-even
  as CPython's fixed-point formatting does).  CPython formats the IEEE double
  nearest to the value; the double agrees with the exact value's rounding for
  every input except those lying exactly midway between two outputs, where the
  printed digit follows the sign of the double's representation error.  The
  comments at the two definitions record this.
-/

/-! ## Calendar arithmetic (embedding of the `datetime` library facts used) -/

/-- Proleptic Gregorian leap-year test, as used by `datetime.date`. -/
def isLeap (y : Int) : Bool :=
  y % 4 = 0 && (y % 100 ≠ 0 || y % 400 = 0)

/-- Length of a month in the proleptic Gregorian calendar. -/
def daysInMonth (y : Int) (m : Nat) : Nat :=
  if m = 1 then 31
  else if m = 2 then (if isLeap y then 29 else 28)
  else if m = 3 then 31
  else if m = 4 then 30
  else if m = 5 then 31
  else if m = 6 then 30
  else if m = 7 then 31
  else if m = 8 then 31
  else if m = 9 then 30
  else if m = 10 then 31
  else if m = 11 then 30
  else 31

/-- A civil calendar date (year, month, day). -/
structure Date where
  year : Int
  month : Nat
  day : Nat
deriving DecidableEq, Repr

/-- A civil datetime in the script's fixed zone `CST = UTC-06:00`, at
one-second resolution. -/
structure DateTime where
  date : Date
  hour : Nat
  minute : Nat
  second : Nat
deriving DecidableEq, Repr

/-- The fields form a real calendar datetime (what `datetime` guarantees). -/
def DateTime.Valid (t : DateTime) : Prop :=
  1 ≤ t.date.month ∧ t.date.month ≤ 12 ∧
  1 ≤ t.date.day ∧ t.date.day ≤ daysInMonth t.date.year t.date.month ∧
  t.hour < 24 ∧ t.minute < 60 ∧ t.second < 60

instance (t : DateTime) : Decidable t.Valid := by
  unfold DateTime.Valid; exact inferInstance

/-- Days since 1970-01-01 of a civil date (Hinnant's `days_from_civil`,
embedding CPython's `date.toordinal` up to the constant epoch shift). -/
def daysFromCivil (d : Date) : Int :=
  let y : Int := if d.month ≤ 2 then d.year - 1 else d.year
  let era : Int := Int.fdiv y 400
  let yoe : Nat := (y - era * 400).toNat
  let mp : Nat := if 2 < d.month then d.month - 3 else d.month + 9
  let doy : Nat := (153 * mp + 2) / 5 + d.day - 1
  let doe : Nat := yoe * 365 + yoe / 4 - yoe / 100 + doy
  era * 146097 + (doe : Int) - 719468

/-- Civil date of a days-since-epoch count (Hinnant's `civil_from_days`,
embedding CPython's `date.fromordinal` up to the constant epoch shift). -/
def civilFromDays (z0 : Int) : Date :=
  let z : Int := z0 + 719468
  let era : Int := Int.fdiv z 146097
  let doe : Nat := (z - era * 146097).toNat
  let yoe : Nat := (doe - doe / 1460 + doe / 36524 - doe / 146096) / 365
  let y : Int := (yoe : Int) + era * 400
  let doy : Nat := doe - (365 * yoe + yoe / 4 - yoe / 100)
  let mp : Nat := (5 * doy + 2) / 153
  let d : Nat := doy - (153 * mp + 2) / 5 + 1
  let m : Nat := if mp < 10 then mp + 3 else mp - 9
  { year := if m ≤ 2 then y + 1 else y, month := m, day := d }

/-- The civil date following `d` (what `(x + timedelta(days=1)).date()`
computes for an `x` on date `d` in a fixed-offset zone). -/
def nextDate (d : Date) : Date :=
  if d.day < daysInMonth d.year d.month then ⟨d.year, d.month, d.day + 1⟩
  else if d.month < 12 then ⟨d.year, d.month + 1, 1⟩
  else ⟨d.year + 1, 1, 1⟩

/-- Seconds after local midnight. -/
def tod (t : DateTime) : Int :=
  (t.hour * 3600 + t.minute * 60 + t.second : Nat)

/-- Seconds since the epoch of the local wall clock; differences and order of
two `DateTime`s in the same fixed zone agree with Python's aware-`datetime`
subtraction and comparison. -/
def secOf (t : DateTime) : Int :=
  daysFromCivil t.date * 86400 + tod t

/-! ## `format_duration` (src/claude_statusline.py lines 93-103) -/

/-- Embedding of `format_duration`.  The input is the signed whole-second span
`int(delta.total_seconds())`.

Source:
```
total_sec = max(0, int(delta.total_seconds()))
total_min = total_sec // 60
if total_min < 60: return f"{total_min}min"
h, rem_sec = divmod(total_sec, 3600)
m, s = divmod(rem_sec, 60)
if h < 24: return f"{h}h {m}m" if m else f"{h}h"
days = total_min / 1440
return f"{days:.1f}d".replace(".0d", "d")
```
The final line formats the IEEE double nearest to `total_min / 1440` with one
decimal; for every `total_min` whose exact value is not precisely midway
between two tenths (that is, `total_min % 144 ≠ 72`) this equals rounding the
exact value to the nearest tenth, which the model computes as
`(total_min + 72) / 144` (half-up at the midway points).  In the formatted
string the digits of the integer part contain no `.`, so `".0d"` can occur
only as the suffix and `.replace(".0d", "d")` collapses exactly the
zero-tenths case. -/
def format_duration (sec : Int) : String :=
  let totalSec : Nat := (max 0 sec).toNat
  let totalMin : Nat := totalSec / 60
  if totalMin < 60 then toString totalMin ++ "min"
  else
    let h : Nat := totalSec / 3600
    let m : Nat := totalSec % 3600 / 60
    if h < 24 then
      if m ≠ 0 then toString h ++ "h " ++ toString m ++ "m" else toString h ++ "h"
    else
      let tenths : Nat := (totalMin + 72) / 144
      if tenths % 10 = 0 then toString (tenths / 10) ++ "d"
      else toString (tenths / 10) ++ "." ++ toString (tenths % 10) ++ "d"

/-! ## The 12-hour clock string used by `format_reset` -/

/-- Two-digit zero-padded minute field, as `%M` renders it. -/
def pad2 (n : Nat) : String :=
  if n < 10 then "0" ++ toString n else toString n

/-- Embedding of
`h = dt.strftime(f"%{nopad}I:%M%p").lower()` followed by
`if h.endswith(":00am") or h.endswith(":00pm"): h = h.replace(":00", "")`
(src lines 112-115; `%-I`/`%#I` is the 12-hour hour with no leading zero).
On a string of shape `H:MMam`/`H:MMpm` the `endswith` test holds exactly when
the minute field is `00`, and the `replace` then deletes the single `:00`
occurrence. -/
def clock12 (hh mm : Nat) : String :=
  let h12 : Nat := if hh % 12 = 0 then 12 else hh % 12
  let ap : String := if hh < 12 then "am" else "pm"
  if pad2 mm = "00" then toString h12 ++ ap
  else toString h12 ++ ":" ++ pad2 mm ++ ap

/-! ## `format_reset` core (src/claude_statusline.py lines 110-125), after the
timestamp has been parsed and converted to CST -/

/-- `delta = dt - now if dt > now else timedelta()` in whole seconds. -/
def resetDelta (dt now : DateTime) : Int :=
  if secOf now < secOf dt then secOf dt - secOf now else 0

/-- `dur = format_duration(delta) if dt > now else "now"`. -/
def resetDur (dt now : DateTime) : String :=
  if secOf now < secOf dt then format_duration (resetDelta dt now) else "now"

/-- Embedding of the body of `format_reset` from the point where `dt` (the
reset instant) and `now` are both civil datetimes in CST.

Source:
```
delta = dt - now if dt > now else timedelta()
dur = format_duration(delta) if dt > now else "now"
show_time = delta.total_seconds() <= 86400
if dt.date() == now.date():
    return f" ({dur} - {h})"
elif dt.date() == (now + timedelta(days=1)).date():
    return f" ({dur} - tmrw {h})" if show_time else f" ({dur} - tmrw)"
else:
    date_str = dt.strftime(f'%{nopad}m/%{nopad}d')
    return f" ({dur} - {date_str} {h})" if show_time else f" ({dur} - {date_str})"
```
`%-m/%-d` renders month and day with no leading zeros, which is `toString` on
the numeric fields. -/
def format_reset_core (dt now : DateTime) : String :=
  if dt.date = now.date then
    " (" ++ resetDur dt now ++ " - " ++ clock12 dt.hour dt.minute ++ ")"
  else if dt.date = nextDate now.date then
    if resetDelta dt now ≤ 86400 then
      " (" ++ resetDur dt now ++ " - tmrw " ++ clock12 dt.hour dt.minute ++ ")"
    else
      " (" ++ resetDur dt now ++ " - tmrw)"
  else
    if resetDelta dt now ≤ 86400 then
      " (" ++ resetDur dt now ++ " - " ++ toString dt.date.month ++ "/" ++
        toString dt.date.day ++ " " ++ clock12 dt.hour dt.minute ++ ")"
    else
      " (" ++ resetDur dt now ++ " - " ++ toString dt.date.month ++ "/" ++
        toString dt.date.day ++ ")"

/-! ## Parsing `resets_at` (src/claude_statusline.py line 110)

`datetime.fromisoformat(resets_at.replace("Z", "+00:00")).astimezone(CST)`.
The parser below embeds `datetime.fromisoformat` on the colon-separated
ISO-8601 forms `YYYY-MM-DD[<sep>HH[:MM[:SS[.f…]]]][±HH:MM]` with the
constructor's range validation; fractional seconds are accepted (one or more
digits) and dropped, matching the one-second resolution of the model.
For a timezone-aware result `astimezone(CST)` shifts the instant to
`UTC-06:00`; for a naive result it first attaches the host machine's local
zone, which the model carries as the explicit offset parameter `hostOff`
(seconds east of UTC). -/

/-- Numeric value of a decimal digit character, or `none`. -/
def digitVal (c : Char) : Option Nat :=
  if c.isDigit then some (c.toNat - 48) else none

/-- Parse exactly two decimal digits. -/
def p2 : List Char → Option (Nat × List Char)
  | a :: b :: r => do pure (10 * (← digitVal a) + (← digitVal b), r)
  | _ => none

/-- Parse exactly four decimal digits. -/
def p4 : List Char → Option (Nat × List Char)
  | a :: b :: c :: d :: r => do
    pure (1000 * (← digitVal a) + 100 * (← digitVal b) + 10 * (← digitVal c) +
      (← digitVal d), r)
  | _ => none

/-- Consume one expected character. -/
def pChar (x : Char) : List Char → Option (List Char)
  | c :: r => if c = x then some r else none
  | [] => none

/-- Consume a nonempty run of fractional-second digits, discarding the value
(the model keeps one-second resolution). -/
def pFrac (cs : List Char) : Option (List Char) :=
  if (cs.takeWhile Char.isDigit).length = 0 then none
  else some (cs.dropWhile Char.isDigit)

/-- Parse `HH[:MM[:SS[.f…]]]`. -/
def pTime (cs : List Char) : Option (Nat × Nat × Nat × List Char) := do
  let (hh, r1) ← p2 cs
  match r1 with
  | ':' :: r2 => do
    let (mm, r3) ← p2 r2
    match r3 with
    | ':' :: r4 => do
      let (ss, r5) ← p2 r4
      match r5 with
      | '.' :: r6 => do
        let r7 ← pFrac r6
        pure (hh, mm, ss, r7)
      | _ => pure (hh, mm, ss, r5)
    | _ => pure (hh, mm, 0, r3)
  | _ => pure (hh, 0, 0, r1)

/-- Embedding of `datetime.fromisoformat` on the forms described above:
civil fields plus the explicit UTC offset in seconds (`none` when the
timestamp is naive).  `none` is a raised `ValueError`. -/
def parseIso (cs : List Char) : Option (DateTime × Option Int) := do
  let (y, r1) ← p4 cs
  let r2 ← pChar '-' r1
  let (mo, r3) ← p2 r2
  let r4 ← pChar '-' r3
  let (dy, r5) ← p2 r4
  if y < 1 ∨ mo < 1 ∨ 12 < mo ∨ dy < 1 ∨ daysInMonth (y : Int) mo < dy then none
  else
    match r5 with
    | [] => pure (⟨⟨(y : Int), mo, dy⟩, 0, 0, 0⟩, none)
    | _sep :: r6 => do
      let (hh, mm, ss, r7) ← pTime r6
      if 23 < hh ∨ 59 < mm ∨ 59 < ss then none
      else
        match r7 with
        | [] => pure (⟨⟨(y : Int), mo, dy⟩, hh, mm, ss⟩, none)
        | c :: r8 =>
          if c = '+' ∨ c = '-' then do
            let (oh, r9) ← p2 r8
            let r10 ← pChar ':' r9
            let (om, r11) ← p2 r10
            if r11 = [] ∧ oh < 24 ∧ om < 60 then
              pure (⟨⟨(y : Int), mo, dy⟩, hh, mm, ss⟩,
                some (if c = '+' then ((oh * 3600 + om * 60 : Nat) : Int)
                      else -((oh * 3600 + om * 60 : Nat) : Int)))
            else none
          else none

/-- The script's fixed zone: `CST = timezone(timedelta(hours=-6))`, as an
offset in seconds east of UTC. -/
def CST_OFFSET : Int := -21600

/-- Civil datetime of an absolute local-second count (inverse direction of
`secOf`, used when `astimezone` materialises the CST wall clock). -/
def civilFromSec (loc : Int) : DateTime :=
  let days : Int := Int.fdiv loc 86400
  let sod : Nat := (loc - days * 86400).toNat
  ⟨civilFromDays days, sod / 3600, sod % 3600 / 60, sod % 60⟩

/-- Embedding of `s.replace("Z", "+00:00")`: every occurrence of the
one-character pattern `Z` is replaced. -/
def replaceZ : List Char → List Char
  | [] => []
  | c :: r =>
    if c = 'Z' then '+' :: '0' :: '0' :: ':' :: '0' :: '0' :: replaceZ r
    else c :: replaceZ r

/-- Embedding of
`datetime.fromisoformat(s.replace("Z", "+00:00")).astimezone(CST)`:
parse, interpret the civil fields at their offset (the host zone `hostOff`
when naive), and re-express the instant in CST. -/
def parseToCST (hostOff : Int) (s : String) : Option DateTime :=
  match parseIso (replaceZ s.data) with
  | none => none
  | some (civ, off) =>
    some (civilFromSec (secOf civ - off.getD hostOff + CST_OFFSET))

/-! ## `format_reset` (src/claude_statusline.py lines 106-127) -/

/-- A JSON value found under `"resets_at"`.  The script only ever treats it
as a string; `rother truthy` stands for any non-string JSON value.  A falsy
one (`null`, `0`, `false`, …) is returned as `""` by the `if not resets_at`
guard, and a truthy one raises `AttributeError` at `.replace`, which the
`except` turns into `""` as well. -/
inductive RVal where
  | rstr (s : String)
  | rother (truthy : Bool)
deriving DecidableEq, Repr

/-- Embedding of `format_reset`.  `none` is an absent `resets_at` key
(`dict.get` returned `None`).

Source:
```
if not resets_at: return ""
try:
    dt = datetime.fromisoformat(resets_at.replace("Z", "+00:00")).astimezone(CST)
    ... (format_reset_core) ...
except Exception:
    return ""
```
-/
def format_reset (resets_at : Option RVal) (hostOff : Int) (now : DateTime) :
    String :=
  match resets_at with
  | none => ""
  | some (.rother _) => ""
  | some (.rstr s) =>
    if s = "" then ""
    else
      match parseToCST hostOff s with
      | none => ""
      | some dt => format_reset_core dt now

/-! ## The renderer `main` (src/claude_statusline.py lines 130-147) -/

/-- Round a rational to the nearest integer, ties to even.  This is the value
CPython's `f"{util:.0f}"` prints for every utilization whose decimal literal
is exactly representable as an IEEE double (in particular every literal with
at most a couple of decimal places, and every exact half); for other literals
the printed digit can differ only when the value lies within the double's
representation error of an exact half.  The fractional part `q - ⌊q⌋` is
compared with `1/2` on the integers: `2 * (q.num - ⌊q⌋ * q.den)` against
`q.den`. -/
def roundHalfEven (q : ℚ) : ℤ :=
  let f : ℤ := Rat.floor q
  let r2 : ℤ := 2 * (q.num - f * q.den)
  if r2 < q.den then f
  else if (q.den : ℤ) < r2 then f + 1
  else if f % 2 = 0 then f else f + 1

/-- Embedding of `f"{util:.0f}"` (CPython prints `-0` for negative values
that round to zero). -/
def fmtF0 (q : ℚ) : String :=
  let n := roundHalfEven q
  if q < 0 ∧ n = 0 then "-0" else toString n

/-- The JSON object stored under a window key, restricted to what `main`
reads: the value at `"utilization"` if that key is present (the script only
ever formats it as a number), the value at `"resets_at"` if present, and the
number of remaining keys (which only matters for the dict's truthiness). -/
structure WinObj where
  utilization : Option ℚ
  resets_at : Option RVal
  otherKeys : Nat
deriving DecidableEq, Repr

/-- A JSON value stored under `"five_hour"`/`"seven_day"`: `null` or an
object.  (`dict.get` maps JSON `null` to `None`, which is falsy exactly like
an empty dict.) -/
inductive WVal where
  | wnull
  | wobj (o : WinObj)
deriving DecidableEq, Repr

/-- Python truthiness of the fetched window value: `None`/`null` and the
empty dict are falsy. -/
def WVal.truthy : WVal → Bool
  | .wnull => false
  | .wobj o => o.utilization.isSome || o.resets_at.isSome || o.otherKeys != 0

/-- A usage snapshot as `main` consumes it: the two optional window keys. -/
structure Snapshot where
  five_hour : Option WVal
  seven_day : Option WVal
deriving DecidableEq, Repr

/-- The empty mapping `{}`. -/
def emptySnapshot : Snapshot := ⟨none, none⟩

/-- One emitted line:
`parts.append(f"{label}: {util:.0f}%{reset_str}")` with
`util = w.get("utilization", 0)` and `reset_str = format_reset(w.get("resets_at"))`. -/
def windowLine (label : String) (o : WinObj) (hostOff : Int) (now : DateTime) :
    String :=
  label ++ ": " ++ fmtF0 (o.utilization.getD 0) ++ "%" ++
    format_reset o.resets_at hostOff now

/-- The lines contributed by one window key: none unless the fetched value is
truthy (`if five:` / `if seven:`). -/
def winLines (label : String) (w : Option WVal) (hostOff : Int)
    (now : DateTime) : List String :=
  match w with
  | some (.wobj o) =>
    if (WVal.wobj o).truthy then [windowLine label o hostOff now] else []
  | _ => []

/-- Embedding of `main`'s rendering: `print("\n".join(parts))`, modelled as
the joined string handed to `print`. -/
def mainRender (u : Snapshot) (hostOff : Int) (now : DateTime) : String :=
  String.intercalate "\n"
    (winLines "5h" u.five_hour hostOff now ++ winLines "7d" u.seven_day hostOff now)

/-! ## `fetch_usage` (src/claude_statusline.py lines 52-90)

The function's interactions with the filesystem, clock and network are
captured by an environment record holding the outcome of each external step;
`fetch_usage` quantified over all environments covers every combination of
cache state, credential state and network outcome.  Reads at snapshot shape
stand for `json.load`: `none` is any raised exception (missing file,
unreadable file, undecodable body, …). -/

/-- `CACHE_TTL = 120  # seconds between API refreshes`. -/
def CACHE_TTL : ℚ := 120

/-- Outcomes of the external steps `fetch_usage` performs, in program order:
`cacheExists` is `os.path.exists(CACHE_FILE)`; `getAge` is
`time.time() - os.path.getmtime(CACHE_FILE)` or a raised `OSError`;
`readFresh` is the `open`+`json.load` of the fresh-cache branch; `token` is
the credential-file read and field extraction; `netData` is the
`urlopen`+`json.loads` of the API call (`none` covers connection errors,
timeouts, non-2xx responses and malformed bodies); `writeOk` tells whether
`open(CACHE_FILE, "w")`+`json.dump` succeeded; `readStale` is the
`open`+`json.load` of the stale fallback (a separate outcome, since the
failed write may have truncated the file). -/
structure FetchEnv where
  cacheExists : Bool
  getAge : Option ℚ
  readFresh : Option Snapshot
  token : Option String
  netData : Option Snapshot
  writeOk : Bool
  readStale : Option Snapshot

/-- The fresh-cache attempt (first `try` block): the snapshot returned by the
early `return json.load(f)`, if that line is reached and succeeds.

Source:
```
try:
    if os.path.exists(CACHE_FILE):
        age = time.time() - os.path.getmtime(CACHE_FILE)
        if age < CACHE_TTL:
            with open(CACHE_FILE) as f:
                return json.load(f)
except Exception:
    pass
```
-/
def freshResult (e : FetchEnv) : Option Snapshot :=
  if e.cacheExists then
    match e.getAge with
    | some age => if age < CACHE_TTL then e.readFresh else none
    | none => none
  else none

/-- Embedding of `fetch_usage`.  The second component records whether
`urllib.request.urlopen` was invoked.

Source (second `try` block):
```
try:
    with open(CRED_FILE) as f:
        token = json.load(f)["claudeAiOauth"]["accessToken"]
    req = urllib.request.Request(...)
    with urllib.request.urlopen(req, timeout=5) as resp:
        data = json.loads(resp.read())
    with open(CACHE_FILE, "w") as f:
        json.dump(data, f)
    return data
except Exception:
    try:
        with open(CACHE_FILE) as f:
            return json.load(f)
    except Exception:
        return {}
```
Note that the cache write sits inside the same `try` as the fetch: a failed
write raises into the outer `except` and the function falls through to the
stale-cache read instead of returning `data`. -/
def fetch_usage (e : FetchEnv) : Snapshot × Bool :=
  match freshResult e with
  | some s => (s, false)
  | none =>
    match e.token with
    | none => (e.readStale.getD emptySnapshot, false)
    | some _ =>
      match e.netData with
      | none => (e.readStale.getD emptySnapshot, true)
      | some d =>
        if e.writeOk then (d, true)
        else (e.readStale.getD emptySnapshot, true)

/-! ## Spec-side comparison definitions

These two definitions follow the wording of the specification (§4.1 rule
list and §4.5 step 3) rather than the source, and exist only to be compared
with the source-derived definitions above. -/

/-- The duration rules as the spec words them: minutes if the total minutes
are under 60; else hours with a minutes remainder if the total hours are
under 24; else fractional days to one decimal with a trailing `.0`
collapsed. -/
def durationSpec (sec : Int) : String :=
  let t : Nat := (max 0 sec).toNat
  let totalMin : Nat := t / 60
  if totalMin < 60 then toString totalMin ++ "min"
  else if totalMin / 60 < 24 then
    if 0 < totalMin % 60 then
      toString (totalMin / 60) ++ "h " ++ toString (totalMin % 60) ++ "m"
    else toString (totalMin / 60) ++ "h"
  else
    let tenths : Nat := (10 * totalMin + 720) / 1440
    if tenths % 10 = 0 then toString (tenths / 10) ++ "d"
    else toString (tenths / 10) ++ "." ++ toString (tenths % 10) ++ "d"

/-- The clock rule as the spec words it: 12-hour clock, hour without a
leading zero, minutes zero-padded, lowercase `am`/`pm`, and the `:00`
dropped when the minutes are exactly zero. -/
def clockSpec (hh mm : Nat) : String :=
  let h12 : Nat := if hh % 12 = 0 then 12 else hh % 12
  let ap : String := if hh < 12 then "am" else "pm"
  if mm = 0 then toString h12 ++ ap
  else toString h12 ++ ":" ++ pad2 mm ++ ap

/-! ## Helper lemmas -/

/-- On a minute field in range, the `"00"` test that the source performs on
the formatted string holds exactly for minute zero. -/
theorem pad2_eq_double_zero : ∀ mm, mm < 60 → ((pad2 mm = "00") ↔ mm = 0) := by
  decide

/-- `format_duration` agrees with the spec's wording of the rules
(`durationSpec`). -/
theorem format_duration_eq_durationSpec (sec : Int) :
    format_duration sec = durationSpec sec := by
  have e1 : (max 0 sec).toNat / 3600 = (max 0 sec).toNat / 60 / 60 := by
    rw [Nat.div_div_eq_div_mul]
  have e2 : (max 0 sec).toNat % 3600 / 60 = (max 0 sec).toNat / 60 % 60 := by
    have := Nat.mod_mul_right_div_self (max 0 sec).toNat 60 60
    simpa using this
  have e3 : ((max 0 sec).toNat / 60 + 72) / 144 =
      (10 * ((max 0 sec).toNat / 60) + 720) / 1440 := by
    have h10 : 10 * ((max 0 sec).toNat / 60 + 72) / (10 * 144) =
        ((max 0 sec).toNat / 60 + 72) / 144 :=
      Nat.mul_div_mul_left _ _ (by norm_num)
    calc ((max 0 sec).toNat / 60 + 72) / 144
        = 10 * ((max 0 sec).toNat / 60 + 72) / (10 * 144) := h10.symm
      _ = (10 * ((max 0 sec).toNat / 60) + 720) / 1440 := by ring_nf
  simp only [format_duration, durationSpec, e1, e2, e3]
  by_cases h2 : (max 0 sec).toNat / 60 % 60 = 0 <;>
    simp [h2, Nat.pos_of_ne_zero]

/-! ## Claim theorems -/

/-- C1: for every combination of cache state, credential state and network
outcome, `fetch_usage` raises no exception (it is a total function of its
environment) and its result is one of exactly three values: the fresh cached
snapshot, the newly fetched snapshot, or the stale-cache/empty fallback. -/
theorem fetch_usage_three_outcomes (e : FetchEnv) :
    (∃ s, freshResult e = some s ∧ (fetch_usage e).1 = s) ∨
    (∃ d, e.netData = some d ∧ (fetch_usage e).1 = d) ∨
    (fetch_usage e).1 = e.readStale.getD emptySnapshot := by
  rcases hf : freshResult e with _ | s
  · rcases ht : e.token with _ | t
    · right; right; simp [fetch_usage, hf, ht]
    · rcases hn : e.netData with _ | d
      · right; right; simp [fetch_usage, hf, ht, hn]
      · by_cases hw : e.writeOk
        · right; left
          exact ⟨d, rfl, by simp [fetch_usage, hf, ht, hn, hw]⟩
        · right; right; simp [fetch_usage, hf, ht, hn, hw]
  · left
    exact ⟨s, rfl, by simp [fetch_usage, hf]⟩

/-- C2: when the cache file exists, its age is strictly below the TTL and it
reads and parses successfully, `fetch_usage` returns the cached snapshot and
the network is not consulted. -/
theorem fetch_usage_fresh_cache_hit (e : FetchEnv) (a : ℚ) (s : Snapshot)
    (h1 : e.cacheExists = true) (h2 : e.getAge = some a) (h3 : a < CACHE_TTL)
    (h4 : e.readFresh = some s) :
    fetch_usage e = (s, false) := by
  have hf : freshResult e = some s := by simp [freshResult, h1, h2, h3, h4]
  simp [fetch_usage, hf]

theorem fetch_usage_fresh_cache_hit_witness :
    fetch_usage ⟨true, some 50, some ⟨some .wnull, none⟩, none, none, true, none⟩ =
      (⟨some .wnull, none⟩, false) :=
  fetch_usage_fresh_cache_hit _ 50 ⟨some .wnull, none⟩ rfl rfl (by decide) rfl

/-- C3: when the fresh-cache check does not produce a snapshot and the
remote path fails before the cache write (missing credential or a failed
network fetch, which covers connection errors, timeouts, non-2xx responses
and malformed bodies), `fetch_usage` returns the persisted stale snapshot if
one is readable and the empty mapping otherwise, and the renderer emits the
empty string for the empty mapping. -/
theorem fetch_usage_stale_fallback (e : FetchEnv)
    (hf : freshResult e = none) (hfail : e.token = none ∨ e.netData = none) :
    (fetch_usage e).1 = e.readStale.getD emptySnapshot ∧
    (e.readStale = none → (fetch_usage e).1 = emptySnapshot) ∧
    ∀ hostOff now, mainRender emptySnapshot hostOff now = "" := by
  have h1 : (fetch_usage e).1 = e.readStale.getD emptySnapshot := by
    rcases hfail with ht | hn
    · simp [fetch_usage, hf, ht]
    · rcases ht : e.token with _ | t
      · simp [fetch_usage, hf, ht]
      · simp [fetch_usage, hf, ht, hn]
  exact ⟨h1, fun hs => by simp [h1, hs], fun hostOff now => rfl⟩

theorem fetch_usage_stale_fallback_witness :
    (fetch_usage ⟨true, some 500, some ⟨some .wnull, none⟩, none, none, true,
        some ⟨none, some .wnull⟩⟩).1 =
      ((some (⟨none, some .wnull⟩ : Snapshot)).getD emptySnapshot) ∧
    ((some (⟨none, some .wnull⟩ : Snapshot)) = none →
      (fetch_usage ⟨true, some 500, some ⟨some .wnull, none⟩, none, none, true,
          some ⟨none, some .wnull⟩⟩).1 = emptySnapshot) ∧
    ∀ hostOff now, mainRender emptySnapshot hostOff now = "" :=
  fetch_usage_stale_fallback _ (by decide) (Or.inl rfl)

/-- C4 counterexample: a successful remote fetch whose cache write fails
does not return the new snapshot — the raised write error lands in the outer
`except` and the stale-cache fallback (here: the empty mapping) is returned
instead.  The concrete input: no cache file, a readable credential, a
successful fetch of `{"five_hour": {"utilization": 42}}`, a failing cache
write, and an unreadable stale cache. -/
theorem fetch_usage_write_failure_cex :
    (fetch_usage ⟨false, none, none, some "token",
        some ⟨some (.wobj ⟨some 42, none, 0⟩), none⟩, false, none⟩).1 ≠
      ⟨some (.wobj ⟨some 42, none, 0⟩), none⟩ ∧
    (fetch_usage ⟨false, none, none, some "token",
        some ⟨some (.wobj ⟨some 42, none, 0⟩), none⟩, false, none⟩).1 =
      emptySnapshot := by
  decide

/-- C4 amended: when the remote fetch succeeds and the response parses,
`fetch_usage` returns the new snapshot if the cache write also succeeds; a
cache-write failure is caught (no exception escapes) but triggers the
stale-cache fallback, so the returned value is then the re-read cache
content, or the empty mapping if that read fails. -/
theorem fetch_usage_write_outcome (e : FetchEnv) (t : String) (d : Snapshot)
    (hf : freshResult e = none) (ht : e.token = some t)
    (hn : e.netData = some d) :
    fetch_usage e =
      if e.writeOk then (d, true) else (e.readStale.getD emptySnapshot, true) := by
  by_cases hw : e.writeOk <;> simp [fetch_usage, hf, ht, hn, hw]

theorem fetch_usage_write_outcome_witness :
    fetch_usage ⟨false, none, none, some "token", some ⟨none, some .wnull⟩, true,
        none⟩ =
      (⟨none, some .wnull⟩, true) := by
  have h := fetch_usage_write_outcome
    ⟨false, none, none, some "token", some ⟨none, some .wnull⟩, true, none⟩
    "token" ⟨none, some .wnull⟩ rfl rfl rfl
  simpa using h

/-- C5: `format_duration` clamps negative spans to zero and renders minutes
under an hour, hours (with a minutes remainder when nonzero) under a day,
and fractional days to one decimal with a trailing `.0` collapsed — and in
particular `0s → "0min"`, `5400s → "1h 30m"`, `18000s → "5h"`,
`172800s → "2d"`, `93600s → "1.1d"`. -/
theorem format_duration_rules :
    (∀ sec : Int, format_duration sec = durationSpec sec) ∧
    format_duration 0 = "0min" ∧
    format_duration 5400 = "1h 30m" ∧
    format_duration 18000 = "5h" ∧
    format_duration 172800 = "2d" ∧
    format_duration 93600 = "1.1d" :=
  ⟨format_duration_eq_durationSpec, by decide, by decide, by decide, by decide,
    by decide⟩

/-- C6: `format_reset` frames the annotation by calendar date — same date as
`now` gives `" (<duration> - <clock>)"`, exactly the next date gives the
`tmrw` forms, any other date gives the `<month>/<day>` forms with unpadded
numbers — and the clock is included exactly when the remaining (clamped)
duration is within 24 hours: the two later branches test that threshold
directly, and on the same-date branch, where the clock is unconditional, the
threshold always holds. -/
theorem format_reset_core_calendar_branches (dt now : DateTime)
    (hdt : dt.Valid) (_hnow : now.Valid) :
    (dt.date = now.date →
      format_reset_core dt now =
        " (" ++ resetDur dt now ++ " - " ++ clock12 dt.hour dt.minute ++ ")" ∧
      resetDelta dt now ≤ 86400) ∧
    (dt.date ≠ now.date → dt.date = nextDate now.date →
      format_reset_core dt now =
        if resetDelta dt now ≤ 86400 then
          " (" ++ resetDur dt now ++ " - tmrw " ++ clock12 dt.hour dt.minute ++ ")"
        else " (" ++ resetDur dt now ++ " - tmrw)") ∧
    (dt.date ≠ now.date → dt.date ≠ nextDate now.date →
      format_reset_core dt now =
        if resetDelta dt now ≤ 86400 then
          " (" ++ resetDur dt now ++ " - " ++ toString dt.date.month ++ "/" ++
            toString dt.date.day ++ " " ++ clock12 dt.hour dt.minute ++ ")"
        else " (" ++ resetDur dt now ++ " - " ++ toString dt.date.month ++ "/" ++
          toString dt.date.day ++ ")") := by
  refine ⟨fun h => ⟨?_, ?_⟩, fun h1 h2 => ?_, fun h1 h2 => ?_⟩
  · unfold format_reset_core
    rw [if_pos h]
  · obtain ⟨-, -, -, -, hh, hm, hs⟩ := hdt
    have hd : daysFromCivil dt.date = daysFromCivil now.date := by rw [h]
    simp only [resetDelta, secOf, tod, hd]
    split <;> omega
  · unfold format_reset_core
    rw [if_neg h1, if_pos h2]
  · unfold format_reset_core
    rw [if_neg h1, if_neg h2]

theorem format_reset_core_calendar_branches_witness :
    format_reset_core ⟨⟨2025, 6, 10⟩, 15, 30, 0⟩ ⟨⟨2025, 6, 10⟩, 15, 0, 0⟩ =
      " (" ++ resetDur ⟨⟨2025, 6, 10⟩, 15, 30, 0⟩ ⟨⟨2025, 6, 10⟩, 15, 0, 0⟩ ++
        " - " ++ clock12 15 30 ++ ")" ∧
    resetDelta ⟨⟨2025, 6, 10⟩, 15, 30, 0⟩ ⟨⟨2025, 6, 10⟩, 15, 0, 0⟩ ≤ 86400 :=
  (format_reset_core_calendar_branches _ _ (by decide) (by decide)).1 rfl

/-- C7: the clock is rendered as a 12-hour time with the hour unpadded, the
minutes zero-padded, a lowercase `am`/`pm` suffix, and the `:00` dropped
exactly when the minutes are zero (the spec-worded `clockSpec`); and when the
reset instant is not after `now` the remaining duration is zero and the
duration label is `"now"`. -/
theorem format_reset_clock_and_now (dt now : DateTime) (hdt : dt.Valid) :
    clock12 dt.hour dt.minute = clockSpec dt.hour dt.minute ∧
    (¬ secOf now < secOf dt →
      resetDelta dt now = 0 ∧ resetDur dt now = "now") := by
  obtain ⟨-, -, -, -, -, hm, -⟩ := hdt
  constructor
  · simp only [clock12, clockSpec]
    by_cases h0 : dt.minute = 0
    · rw [if_pos ((pad2_eq_double_zero dt.minute hm).mpr h0), if_pos h0]
    · rw [if_neg (fun hc => h0 ((pad2_eq_double_zero dt.minute hm).mp hc)),
        if_neg h0]
  · intro h
    unfold resetDelta resetDur
    rw [if_neg h, if_neg h]
    exact ⟨rfl, rfl⟩

theorem format_reset_clock_and_now_witness :
    clock12 15 0 = clockSpec 15 0 ∧
    (resetDelta ⟨⟨2025, 6, 10⟩, 15, 0, 0⟩ ⟨⟨2025, 6, 10⟩, 16, 0, 0⟩ = 0 ∧
      resetDur ⟨⟨2025, 6, 10⟩, 15, 0, 0⟩ ⟨⟨2025, 6, 10⟩, 16, 0, 0⟩ = "now") := by
  have h := format_reset_clock_and_now ⟨⟨2025, 6, 10⟩, 15, 0, 0⟩
    ⟨⟨2025, 6, 10⟩, 16, 0, 0⟩ (by decide)
  exact ⟨h.1, h.2 (by decide)⟩

/-- C9: `format_reset` returns the empty string when the reset value is
absent, when it is any non-string JSON value, when it is the empty string,
and when timestamp parsing fails; and in every such case the window's line is
still emitted, carrying its utilization with an empty reset annotation. -/
theorem format_reset_failure_yields_empty :
    (∀ hostOff now, format_reset none hostOff now = "") ∧
    (∀ b hostOff now, format_reset (some (.rother b)) hostOff now = "") ∧
    (∀ s hostOff now, parseToCST hostOff s = none →
      format_reset (some (.rstr s)) hostOff now = "") ∧
    (∀ label o hostOff now, format_reset o.resets_at hostOff now = "" →
      windowLine label o hostOff now =
        label ++ ": " ++ fmtF0 (o.utilization.getD 0) ++ "%") ∧
    (∀ label o hostOff now, (WVal.wobj o).truthy = true →
      winLines label (some (.wobj o)) hostOff now =
        [windowLine label o hostOff now]) := by
  refine ⟨fun _ _ => rfl, fun _ _ _ => rfl, fun s hostOff now hp => ?_,
    fun label o hostOff now hr => ?_, fun label o hostOff now ht => ?_⟩
  · by_cases hs : s = ""
    · simp [format_reset, hs]
    · simp [format_reset, hs, hp]
  · unfold windowLine
    rw [hr, String.append_empty]
  · simp [winLines, ht]

theorem format_reset_failure_yields_empty_witness :
    format_reset (some (.rstr "not-a-timestamp")) 0 ⟨⟨2025, 6, 10⟩, 15, 0, 0⟩ =
      "" ∧
    windowLine "5h" ⟨some 42, some (.rstr "not-a-timestamp"), 0⟩ 0
      ⟨⟨2025, 6, 10⟩, 15, 0, 0⟩ = "5h: 42%" := by
  have h := format_reset_failure_yields_empty
  have h3 := h.2.2.1 "not-a-timestamp" 0 ⟨⟨2025, 6, 10⟩, 15, 0, 0⟩ (by decide)
  have h4 := h.2.2.2.1 "5h" ⟨some 42, some (.rstr "not-a-timestamp"), 0⟩ 0
    ⟨⟨2025, 6, 10⟩, 15, 0, 0⟩ h3
  exact ⟨h3, h4.trans (by decide)⟩

/-- C10: a window key holding a non-empty object that lacks `utilization`
still yields that window's line, with `0` as the displayed utilization;
while a window key holding an empty object or `null` — like an absent key —
yields no line. -/
theorem renderer_window_truthiness (label : String) (o : WinObj)
    (hostOff : Int) (now : DateTime) :
    (o.utilization = none → (WVal.wobj o).truthy = true →
      winLines label (some (.wobj o)) hostOff now =
        [windowLine label o hostOff now] ∧
      fmtF0 (o.utilization.getD 0) = "0") ∧
    ((WVal.wobj o).truthy = false →
      winLines label (some (.wobj o)) hostOff now = []) ∧
    winLines label (some .wnull) hostOff now = [] ∧
    winLines label none hostOff now = [] := by
  refine ⟨fun hu ht => ⟨?_, ?_⟩, fun ht => ?_, rfl, rfl⟩
  · simp [winLines, ht]
  · rw [hu]
    decide
  · simp [winLines, ht]

theorem renderer_window_truthiness_witness :
    winLines "7d" (some (.wobj ⟨none, none, 1⟩)) 0 ⟨⟨2025, 6, 10⟩, 15, 0, 0⟩ =
      [windowLine "7d" ⟨none, none, 1⟩ 0 ⟨⟨2025, 6, 10⟩, 15, 0, 0⟩] ∧
    fmtF0 ((⟨none, none, 1⟩ : WinObj).utilization.getD 0) = "0" :=
  (renderer_window_truthiness "7d" ⟨none, none, 1⟩ 0
    ⟨⟨2025, 6, 10⟩, 15, 0, 0⟩).1 rfl rfl

/-- `roundHalfEven` lands within half a unit of its input, and on an exact
half it picks the even neighbour. -/
theorem roundHalfEven_spec (q : ℚ) :
    |q - (roundHalfEven q : ℚ)| ≤ 1 / 2 ∧
    (|q - (roundHalfEven q : ℚ)| = 1 / 2 → roundHalfEven q % 2 = 0) := by
  have hf : Rat.floor q = ⌊q⌋ := (Rat.floor_def' q).trans Rat.floor_def.symm
  have hden0 : (0 : ℚ) < (q.den : ℚ) := by exact_mod_cast q.den_pos
  have hfl : ((⌊q⌋ : ℤ) : ℚ) ≤ q := Int.floor_le q
  have hfu : q < (⌊q⌋ : ℚ) + 1 := Int.lt_floor_add_one q
  have key : ((2 * (q.num - ⌊q⌋ * q.den) : ℤ) : ℚ) =
      (2 * (q - (⌊q⌋ : ℚ))) * (q.den : ℚ) := by
    push_cast
    rw [← Rat.mul_den_eq_num]
    ring
  simp only [roundHalfEven, hf]
  by_cases h1 : 2 * (q.num - ⌊q⌋ * q.den) < (q.den : ℤ)
  · rw [if_pos h1]
    have h1q : (2 * (q - (⌊q⌋ : ℚ))) * (q.den : ℚ) < 1 * (q.den : ℚ) := by
      rw [← key, one_mul]
      exact_mod_cast h1
    have hr : q - (⌊q⌋ : ℚ) < 1 / 2 := by
      have := (mul_lt_mul_right hden0).mp h1q
      linarith
    have habs : |q - ((⌊q⌋ : ℤ) : ℚ)| = q - (⌊q⌋ : ℚ) :=
      abs_of_nonneg (by linarith)
    refine ⟨by rw [habs]; linarith, fun hc => absurd hc (by rw [habs]; linarith)⟩
  · rw [if_neg h1]
    have hgeq : 1 * (q.den : ℚ) ≤ (2 * (q - (⌊q⌋ : ℚ))) * (q.den : ℚ) := by
      rw [← key, one_mul]
      exact_mod_cast not_lt.mp h1
    have hrge : 1 / 2 ≤ q - (⌊q⌋ : ℚ) := by
      have := (mul_le_mul_right hden0).mp hgeq
      linarith
    by_cases h2 : (q.den : ℤ) < 2 * (q.num - ⌊q⌋ * q.den)
    · rw [if_pos h2]
      have hgt : 1 * (q.den : ℚ) < (2 * (q - (⌊q⌋ : ℚ))) * (q.den : ℚ) := by
        rw [← key, one_mul]
        exact_mod_cast h2
      have hrgt : 1 / 2 < q - (⌊q⌋ : ℚ) := by
        have := (mul_lt_mul_right hden0).mp hgt
        linarith
      have habs : |q - ((⌊q⌋ + 1 : ℤ) : ℚ)| = (⌊q⌋ : ℚ) + 1 - q := by
        rw [abs_of_nonpos (by push_cast; linarith)]
        push_cast
        ring
      refine ⟨by rw [habs]; linarith, fun hc => absurd hc (by rw [habs]; linarith)⟩
    · rw [if_neg h2]
      have hle : (2 * (q - (⌊q⌋ : ℚ))) * (q.den : ℚ) ≤ 1 * (q.den : ℚ) := by
        rw [← key, one_mul]
        exact_mod_cast not_lt.mp h2
      have hrle : q - (⌊q⌋ : ℚ) ≤ 1 / 2 := by
        have := (mul_le_mul_right hden0).mp hle
        linarith
      have hrtie : q - (⌊q⌋ : ℚ) = 1 / 2 := le_antisymm hrle hrge
      by_cases h3 : ⌊q⌋ % 2 = 0
      · rw [if_pos h3]
        have habs : |q - ((⌊q⌋ : ℤ) : ℚ)| = 1 / 2 := by
          rw [abs_of_nonneg (by linarith)]
          exact hrtie
        exact ⟨le_of_eq habs, fun _ => h3⟩
      · rw [if_neg h3]
        have habs : |q - ((⌊q⌋ + 1 : ℤ) : ℚ)| = 1 / 2 := by
          rw [abs_of_nonpos (by push_cast; linarith)]
          push_cast
          linarith
        exact ⟨le_of_eq habs, fun _ => by omega⟩

/-- C8 counterexample: the claim asserts half-up rounding, so a utilization
of exactly `72.5` would have to render as `"73%"`; the renderer instead
prints `"72%"` (CPython's `f"{72.5:.0f}"` is `"72"`: fixed-point formatting
of a float rounds ties to even, and `72.5` is exactly representable). -/
theorem renderer_half_up_cex :
    windowLine "5h" ⟨some (mkRat 145 2), none, 0⟩ 0 ⟨⟨2025, 1, 1⟩, 0, 0, 0⟩ =
      "5h: 72%" ∧
    ("5h: 72%" : String) ≠ "5h: 73%" := by
  decide

/-- C8 amended: for every window present in the snapshot the renderer emits
the utilization rounded to the nearest integer with ties to even (banker's
rounding, as CPython's float formatting produces) — in particular `73.4`
still renders as `"73"`, but an exact half rounds to the even neighbour
rather than up. -/
theorem renderer_rounds_half_even (q : ℚ) (h : 0 ≤ q) (label : String)
    (hostOff : Int) (now : DateTime) :
    windowLine label ⟨some q, none, 0⟩ hostOff now =
      label ++ ": " ++ toString (roundHalfEven q) ++ "%" ∧
    |q - (roundHalfEven q : ℚ)| ≤ 1 / 2 ∧
    (|q - (roundHalfEven q : ℚ)| = 1 / 2 → roundHalfEven q % 2 = 0) ∧
    fmtF0 (mkRat 734 10) = "73" := by
  refine ⟨?_, (roundHalfEven_spec q).1, (roundHalfEven_spec q).2, by decide⟩
  unfold windowLine
  have hres : format_reset (⟨some q, none, 0⟩ : WinObj).resets_at hostOff now =
      "" := rfl
  rw [hres, String.append_empty]
  have hq : fmtF0 q = toString (roundHalfEven q) := by
    simp only [fmtF0]
    rw [if_neg (fun hc => absurd hc.1 (not_lt.2 h))]
  rw [show (⟨some q, none, 0⟩ : WinObj).utilization.getD 0 = q from rfl, hq]

theorem renderer_rounds_half_even_witness :
    windowLine "5h" ⟨some (mkRat 734 10), none, 0⟩ 0 ⟨⟨2025, 1, 1⟩, 0, 0, 0⟩ =
      "5h" ++ ": " ++ toString (roundHalfEven (mkRat 734 10)) ++ "%" ∧
    |mkRat 734 10 - (roundHalfEven (mkRat 734 10) : ℚ)| ≤ 1 / 2 ∧
    (|mkRat 734 10 - (roundHalfEven (mkRat 734 10) : ℚ)| = 1 / 2 →
      roundHalfEven (mkRat 734 10) % 2 = 0) ∧
    fmtF0 (mkRat 734 10) = "73" :=
  renderer_rounds_half_even (mkRat 734 10) (by decide) "5h" 0
    ⟨⟨2025, 1, 1⟩, 0, 0, 0⟩
